import Mathlib

/-!
Shallow embedding of `src/mixwith.js` (mixwith.js, a JavaScript class-mixin
utility).  The library's behaviour is entirely about runtime identity
bookkeeping on the JavaScript object graph: prototype chains, ad-hoc
properties on functions and prototype objects, and reference identity of
function values.  We therefore model a small JS heap:

* `ObjId` — reference identity of a JS object (functions, classes,
  prototype objects and `Map` objects are all heap objects).
* `Value` — the values the library stores or compares: `undefined`, `null`,
  object references, the closure installed by `HasInstance` (which captures
  the mixin it was installed for), and the built-in
  `Function.prototype[Symbol.hasInstance]` (ordinary `instanceof`).
* `JSObject` — an object: its `[[Prototype]]` link, its own properties
  (only the property keys the library touches are modelled), optionally a
  `Code` making it callable as a mixin, and `Map` entries for cache tables.
* `Heap` — an allocator (`next`), the object store, and a log `calls` of the
  raw mixin bodies invoked so far (the "side-effect counter" of the spec).

Mixin calls are interpreted by a fuel-indexed interpreter `callFn`; a raw
mixin body `Code.classBody b` has the canonical `superclass => class extends
superclass {…}` semantics: it allocates a fresh prototype object whose
`[[Prototype]]` is `superclass.prototype`, a fresh class whose
`[[Prototype]]` is `superclass`, and appends `b` to the call log.  The
wrappers produced by `Cached`, `DeDupe` and `BareMixin` are heap objects
whose `Code` captures the decorated mixin by reference, exactly like the
arrow-function closures in the source.  All fueled functions return `none`
only on fuel exhaustion (or on situations the source would crash on, noted
inline); `some` results are the values the JavaScript code computes.
-/

namespace Mixwith

abbrev ObjId := Nat

/-- The property keys the library reads or writes:
`'__mixwith_appliedMixin'`, `'__mixwith_wrappedMixin'`,
`'__mixwith_cachedApplications'`, `Symbol.hasInstance`, and the ordinary
`.prototype` property of constructor functions. -/
inductive PropKey where
  | appliedMixin
  | wrappedMixin
  | cachedApplications
  | hasInstanceKey
  | prototypeProp
  deriving DecidableEq, Repr

/-- The callable behaviours occurring in the library: a raw mixin body
(`superclass => class extends superclass {…}`, identified by `bodyId`), and
the three wrapper closures from `Cached`, `DeDupe` and `BareMixin`, each
capturing the wrapped mixin by reference. -/
inductive Code where
  | classBody (bodyId : Nat)
  | cachedOf (m : ObjId)
  | dedupeOf (m : ObjId)
  | bareOf (m : ObjId)
  deriving DecidableEq, Repr

/-- JS values relevant to the library.  `hasInstFn m` is the closure
`value(o) { return hasMixin(o, mixin); }` installed by `HasInstance`
(capturing `mixin = m`); `ordinaryHasInst` is the ES2015 built-in
`Function.prototype[Symbol.hasInstance]`. -/
inductive Value where
  | undef
  | nullV
  | obj (id : ObjId)
  | hasInstFn (m : ObjId)
  | ordinaryHasInst
  deriving DecidableEq, Repr

/-- A heap object: `[[Prototype]]` link, own properties (later writes are
consed in front, so `getOwn` sees the latest write), optional callable
behaviour, and `Map` entries (used only for the cache tables that `Cached`
allocates; JS `Map` keys compare by reference identity). -/
structure JSObject where
  proto : Value := Value.nullV
  props : List (PropKey × Value) := []
  code : Option Code := none
  entries : List (ObjId × ObjId) := []
  deriving DecidableEq, Repr

/-- The JS heap: object store, allocation counter, and the log of raw mixin
bodies (`Code.classBody` ids) invoked so far. -/
structure Heap where
  objs : ObjId → Option JSObject
  next : ObjId
  calls : List Nat

def emptyHeap : Heap := { objs := fun _ => none, next := 0, calls := [] }

def JSObject.getOwn (o : JSObject) (k : PropKey) : Option Value :=
  (o.props.find? (fun p => p.1 = k)).map (fun p => p.2)

def Heap.upd (h : Heap) (i : ObjId) (o : JSObject) : Heap :=
  { h with objs := fun j => if j = i then some o else h.objs j }

/-- Write an own property (no-op on a dangling reference, which never
occurs in the modelled runs). -/
def Heap.setProp (h : Heap) (i : ObjId) (k : PropKey) (v : Value) : Heap :=
  match h.objs i with
  | some o => h.upd i { o with props := (k, v) :: o.props }
  | none => h

/-- `Object.setPrototypeOf`. -/
def Heap.setProto (h : Heap) (i : ObjId) (v : Value) : Heap :=
  match h.objs i with
  | some o => h.upd i { o with proto := v }
  | none => h

def Heap.getOwn (h : Heap) (i : ObjId) (k : PropKey) : Option Value :=
  match h.objs i with
  | some o => o.getOwn k
  | none => none

/-- Allocate a fresh object, returning the new heap and the fresh id. -/
def Heap.alloc (h : Heap) (o : JSObject) : Heap × ObjId :=
  ({ h with objs := fun j => if j = h.next then some o else h.objs j,
            next := h.next + 1 }, h.next)

/-- JS truthiness of the values we model (`undefined` and `null` are falsy;
object references and functions are truthy). -/
def truthy : Value → Bool
  | Value.undef => false
  | Value.nullV => false
  | _ => true

/-- `[[Get]]`: property lookup along the prototype chain, fuel-indexed
(`none` = out of fuel).  A chain ending in `null` yields `undefined`. -/
def getProp : Nat → Heap → Value → PropKey → Option Value
  | 0, _, _, _ => none
  | fuel + 1, h, v, k =>
    match v with
    | Value.obj i =>
      match h.objs i with
      | none => some Value.undef
      | some o =>
        match o.getOwn k with
        | some w => some w
        | none => getProp fuel h o.proto k
    | _ => some Value.undef

/-- `export const unwrap = (wrapper) => wrapper[_wrappedMixin] || wrapper;`
(src/mixwith.js line 122). -/
def unwrap (fuel : Nat) (h : Heap) (wrapper : Value) : Option Value :=
  (getProp fuel h wrapper PropKey.wrappedMixin).map
    (fun v => if truthy v then v else wrapper)

/-- `export const wrap = (mixin, wrapper) => {…}` (lines 105–111):
sets `wrapper`'s prototype to `mixin`, and if `mixin[_wrappedMixin]` is
falsy records `mixin` as its own canonical form.  Returns `wrapper`. -/
def wrap (fuel : Nat) (h : Heap) (mixin wrapper : ObjId) : Option (Heap × ObjId) :=
  let h1 := h.setProto wrapper (Value.obj mixin)
  (getProp fuel h1 (Value.obj mixin) PropKey.wrappedMixin).map
    (fun cur =>
      (if truthy cur then h1
       else h1.setProp mixin PropKey.wrappedMixin (Value.obj mixin), wrapper))

/-- `export const isApplicationOf = (proto, mixin) =>
  proto.hasOwnProperty(_appliedMixin) && proto[_appliedMixin] === unwrap(mixin);`
(lines 64–65).  Calling `hasOwnProperty` on `null`/`undefined` throws a
`TypeError`, modelled as `Except.error ()`. -/
def isApplicationOf (fuel : Nat) (h : Heap) (proto : Value) (mixin : Value) :
    Option (Except Unit Bool) :=
  match proto with
  | Value.nullV => some (Except.error ())
  | Value.undef => some (Except.error ())
  | Value.obj i =>
    match h.getOwn i PropKey.appliedMixin with
    | none => some (Except.ok false)
    | some own => (unwrap fuel h mixin).map (fun u => Except.ok (decide (own = u)))
  | _ => some (Except.ok false)

/-- `export const hasMixin = (o, mixin) => {…}` (lines 77–83): walk `o`'s
prototype chain while `o != null` (loose, so both `null` and `undefined`
stop the walk), testing `isApplicationOf` at each link.  `wfuel` bounds the
walk, `lfuel` the lookups inside each step.  Function values as walk
subjects carry no applied-marker and are treated as chain ends (the library
never reaches that case). -/
def hasMixin : Nat → Nat → Heap → Value → Value → Option (Except Unit Bool)
  | 0, _, _, _, _ => none
  | wfuel + 1, lfuel, h, o, mixin =>
    if o = Value.nullV then some (Except.ok false)
    else if o = Value.undef then some (Except.ok false)
    else
      match isApplicationOf lfuel h o mixin with
      | none => none
      | some (Except.error e) => some (Except.error e)
      | some (Except.ok true) => some (Except.ok true)
      | some (Except.ok false) =>
        match o with
        | Value.obj i =>
          match h.objs i with
          | some ob => hasMixin wfuel lfuel h ob.proto mixin
          | none => some (Except.ok false)
        | _ => some (Except.ok false)

/-- The value of `superclass.prototype` as read by `class extends
superclass {…}` (an own property of every constructor function). -/
def superProtoOf (h : Heap) (superclass : ObjId) : Value :=
  match h.objs superclass with
  | some o => (o.getOwn PropKey.prototypeProp).getD Value.undef
  | none => Value.undef

/-- The canonical raw-mixin body `superclass => class extends superclass {…}`:
allocates the class's prototype object (whose `[[Prototype]]` is
`superclass.prototype`, an own property of every constructor) and the class
itself (whose `[[Prototype]]` is `superclass`), and logs the invocation of
body `bodyId`. -/
def mkSubclass (h : Heap) (bodyId : Nat) (superclass : ObjId) : Heap × ObjId :=
  let superProto : Value := superProtoOf h superclass
  let pId := h.next
  let cId := h.next + 1
  let protoObj : JSObject := { proto := superProto }
  let clsObj : JSObject :=
    { proto := Value.obj superclass,
      props := [(PropKey.prototypeProp, Value.obj pId)] }
  ({ h with
      objs := fun j =>
        if j = cId then some clsObj
        else if j = pId then some protoObj
        else h.objs j,
      next := h.next + 2,
      calls := h.calls ++ [bodyId] }, cId)

/-- Map lookup for the cache tables (`cachedApplications.get(mixin)`);
keys compare by reference identity, like a JS `Map`. -/
def mapGet (h : Heap) (mapId : ObjId) (k : ObjId) : Option ObjId :=
  match h.objs mapId with
  | some o => (o.entries.find? (fun e => e.1 = k)).map (fun e => e.2)
  | none => none

/-- `cachedApplications.set(mixin, application)`. -/
def mapSet (h : Heap) (mapId : ObjId) (k v : ObjId) : Heap :=
  match h.objs mapId with
  | some o => h.upd mapId { o with entries := (k, v) :: o.entries }
  | none => h

/-- `application.prototype[_appliedMixin] = unwrap(mixin)` — the stamping
step of `apply` (line 47).  Writing a property of a non-object
`application.prototype` would throw in JS; this never occurs in the
modelled runs, so it is folded into `none`. -/
def stampApplied (fuel : Nat) (h : Heap) (m app : ObjId) : Option Heap :=
  match unwrap fuel h (Value.obj m) with
  | none => none
  | some u =>
    match getProp fuel h (Value.obj app) PropKey.prototypeProp with
    | some (Value.obj p) => some (h.setProp p PropKey.appliedMixin u)
    | _ => none

/-- The call interpreter: invoking function object `f` on `arg`
(`f(arg)`), by the `Code` cases.

* `classBody b` — the raw mixin body, `mkSubclass`.
* `bareOf m` — `(s) => apply(s, mixin)` from `BareMixin` (line 200).
* `cachedOf m` — the closure from `Cached` (lines 140–158): reads
  `superclass[_cachedApplications]` (an inherited-property lookup!),
  lazily creating the `Map`, then memoizes `mixin(superclass)` keyed by
  the captured `mixin` reference.
* `dedupeOf m` — the closure from `DeDupe` (lines 168–171):
  `hasMixin(superclass.prototype, mixin) ? superclass : mixin(superclass)`. -/
def callFn : Nat → Heap → ObjId → ObjId → Option (Heap × ObjId)
  | 0, _, _, _ => none
  | fuel + 1, h, f, arg =>
    match h.objs f with
    | none => none
    | some fobj =>
      match fobj.code with
      | none => none
      | some (Code.classBody b) => some (mkSubclass h b arg)
      | some (Code.bareOf m) =>
        match callFn fuel h m arg with
        | none => none
        | some (h1, app) => (stampApplied fuel h1 m app).map (fun h2 => (h2, app))
      | some (Code.cachedOf m) =>
        match getProp fuel h (Value.obj arg) PropKey.cachedApplications with
        | none => none
        | some cur =>
          match cur with
          | Value.obj mapId =>
            (match mapGet h mapId m with
             | some app => some (h, app)
             | none =>
               match callFn fuel h m arg with
               | none => none
               | some (h1, app) => some (mapSet h1 mapId m app, app))
          | Value.undef =>
            let (h1, mapId) := h.alloc {}
            let h2 := h1.setProp arg PropKey.cachedApplications (Value.obj mapId)
            (match callFn fuel h2 m arg with
             | none => none
             | some (h3, app) => some (mapSet h3 mapId m app, app))
          | Value.nullV =>
            let (h1, mapId) := h.alloc {}
            let h2 := h1.setProp arg PropKey.cachedApplications (Value.obj mapId)
            (match callFn fuel h2 m arg with
             | none => none
             | some (h3, app) => some (mapSet h3 mapId m app, app))
          | _ => none
      | some (Code.dedupeOf m) =>
        match getProp fuel h (Value.obj arg) PropKey.prototypeProp with
        | none => none
        | some pv =>
          match hasMixin fuel fuel h pv (Value.obj m) with
          | some (Except.ok true) => some (h, arg)
          | some (Except.ok false) => callFn fuel h m arg
          | _ => none

/-- `export const apply = (superclass, mixin) => {…}` (lines 45–49):
`mixin(superclass)`, then stamp the application's prototype with
`unwrap(mixin)`. -/
def apply (fuel : Nat) (h : Heap) (superclass mixin : ObjId) : Option (Heap × ObjId) :=
  match callFn fuel h mixin superclass with
  | none => none
  | some (h1, app) => (stampApplied fuel h1 mixin app).map (fun h2 => (h2, app))

/-- `export const Cached = (mixin) => wrap(mixin, (superclass) => {…})`
(line 140): allocate the caching closure and `wrap` it around `mixin`. -/
def Cached (fuel : Nat) (h : Heap) (m : ObjId) : Option (Heap × ObjId) :=
  let (h1, w) := h.alloc { code := some (Code.cachedOf m) }
  wrap fuel h1 m w

/-- `export const DeDupe = (mixin) => wrap(mixin, (superclass) => …)`
(line 168). -/
def DeDupe (fuel : Nat) (h : Heap) (m : ObjId) : Option (Heap × ObjId) :=
  let (h1, w) := h.alloc { code := some (Code.dedupeOf m) }
  wrap fuel h1 m w

/-- `export const BareMixin = (mixin) => wrap(mixin, (s) => apply(s, mixin));`
(line 200). -/
def BareMixin (fuel : Nat) (h : Heap) (m : ObjId) : Option (Heap × ObjId) :=
  let (h1, w) := h.alloc { code := some (Code.bareOf m) }
  wrap fuel h1 m w

/-- `export const Mixin = (mixin) => DeDupe(Cached(BareMixin(mixin)));`
(line 210). -/
def Mixin (fuel : Nat) (h : Heap) (m : ObjId) : Option (Heap × ObjId) :=
  match BareMixin fuel h m with
  | none => none
  | some (h1, b) =>
    match Cached fuel h1 b with
    | none => none
    | some (h2, c) => DeDupe fuel h2 c

/-- `export const HasInstance = (mixin) => {…}` (lines 180–189), in a host
where `Symbol && Symbol.hasInstance` is truthy: if the inherited-property
lookup `mixin[Symbol.hasInstance]` is falsy, install the closure
`value(o) { return hasMixin(o, mixin); }`; always return `mixin`. -/
def HasInstance (fuel : Nat) (h : Heap) (m : ObjId) : Option (Heap × ObjId) :=
  (getProp fuel h (Value.obj m) PropKey.hasInstanceKey).map
    (fun cur =>
      (if truthy cur then h
       else h.setProp m PropKey.hasInstanceKey (Value.hasInstFn m), m))

/-- Does the prototype chain starting at `v` contain object `p`?
(The walk of ES2015 `OrdinaryHasInstance`.) -/
def chainContains : Nat → Heap → Value → ObjId → Option Bool
  | 0, _, _, _ => none
  | fuel + 1, h, v, p =>
    match v with
    | Value.obj i =>
      if i = p then some true
      else
        match h.objs i with
        | some o => chainContains fuel h o.proto p
        | none => some false
    | _ => some false

/-- ES2015 `OrdinaryHasInstance(C, O)` — the built-in
`Function.prototype[Symbol.hasInstance]` behaviour: if `C.prototype` is
not an object, throw a `TypeError`; otherwise test whether it occurs on
`O`'s prototype chain (starting at `O`'s `[[Prototype]]`). -/
def ordinaryInstanceOf (fuel : Nat) (h : Heap) (o : Value) (c : ObjId) :
    Option (Except Unit Bool) :=
  match getProp fuel h (Value.obj c) PropKey.prototypeProp with
  | none => none
  | some (Value.obj p) =>
    match o with
    | Value.obj i =>
      match h.objs i with
      | some ob => (chainContains fuel h ob.proto p).map Except.ok
      | none => some (Except.ok false)
    | _ => some (Except.ok false)
  | some _ => some (Except.error ())

/-- `o instanceof c` in an ES2015 host: look up `c[Symbol.hasInstance]`
along the prototype chain and dispatch on what is found.  A falsy method
falls back to `OrdinaryHasInstance`; a non-callable value throws. -/
def instanceOf (fuel : Nat) (h : Heap) (o : Value) (c : ObjId) :
    Option (Except Unit Bool) :=
  match getProp fuel h (Value.obj c) PropKey.hasInstanceKey with
  | none => none
  | some (Value.hasInstFn m) => hasMixin fuel fuel h o (Value.obj m)
  | some Value.ordinaryHasInst => ordinaryInstanceOf fuel h o c
  | some Value.undef => ordinaryInstanceOf fuel h o c
  | some Value.nullV => ordinaryInstanceOf fuel h o c
  | some (Value.obj _) => some (Except.error ())

/-- `MixinBuilder.with(...mixins)` (lines 246–248):
`mixins.reduce((c, m) => m(c), this.superclass)`. -/
def withMixins (fuel : Nat) (h : Heap) (base : ObjId) (ms : List ObjId) :
    Option (Heap × ObjId) :=
  ms.foldl (fun acc m => acc.bind (fun p => callFn fuel p.1 m p.2)) (some (h, base))

/-- `mix(superclass)` + `MixinBuilder`'s constructor (lines 232, 236–238):
the builder keeps `superclass || class {}`; a falsy argument is replaced by
a fresh empty class.  (Non-object truthy superclasses are not modelled.) -/
def mix (h : Heap) (superclass : Value) : Heap × ObjId :=
  match superclass with
  | Value.obj i => (h, i)
  | _ =>
    let (h1, p) := h.alloc {}
    let (h2, c) := h1.alloc { props := [(PropKey.prototypeProp, Value.obj p)] }
    (h2, c)

end Mixwith

deriving instance DecidableEq for Except

namespace Mixwith

/-! ### Concrete scenario heaps (used by witnesses and the concrete evaluations) -/

def c1Heap : Heap :=
  { objs := fun j =>
      if j = 0 then some { props := [(PropKey.prototypeProp, Value.obj 1)] }
      else if j = 1 then some {}
      else if j = 2 then some { code := some (Code.classBody 7) }
      else none,
    next := 3, calls := [] }

def c1H1 : Heap := (mkSubclass c1Heap 7 0).1

def c5Heap : Heap :=
  { objs := fun j =>
      if j = 0 then some { props := [(PropKey.prototypeProp, Value.obj 1)] }
      else if j = 1 then some { props := [(PropKey.appliedMixin, Value.obj 2)] }
      else if j = 2 then some { code := some (Code.classBody 7) }
      else if j = 3 then some { code := some (Code.dedupeOf 2) }
      else none,
    next := 4, calls := [] }

def c2Heap : Heap :=
  { objs := fun j =>
      if j = 0 then some {}
      else if j = 1 then some {}
      else if j = 2 then some {}
      else none,
    next := 3, calls := [] }

def c10Heap : Heap :=
  { objs := fun j => if j = 0 then some {} else none, next := 1, calls := [] }

def c3H0 : Heap :=
  { objs := fun j =>
      if j = 0 then some { props := [(PropKey.prototypeProp, Value.obj 1)] }
      else if j = 1 then some {}
      else if j = 2 then some { code := some (Code.classBody 9) }
      else none,
    next := 3, calls := [] }

def c3H1 : Heap := ((Cached 9 c3H0 2).getD (emptyHeap, 0)).1

def c6H0 : Heap :=
  { objs := fun j =>
      if j = 0 then some { props := [(PropKey.prototypeProp, Value.obj 1)] }
      else if j = 1 then some {}
      else if j = 2 then some { code := some (Code.classBody 101) }
      else if j = 3 then some { code := some (Code.classBody 102) }
      else none,
    next := 4, calls := [] }

/-- The scenario heap of C6: `M1 = BareMixin(2)` is wrapper `4`,
`M2 = BareMixin(3)` is wrapper `5`; `mix(Base).with(M1, M2)` produces the
chain `Base(0) <- class 7 (proto obj 6, marker 2) <- class 9 (proto obj 8,
marker 3)`; `class C extends …` is `11` with prototype `10`, and `new C()`
is object `12`. -/
def c6Build : Option Heap :=
  (BareMixin 20 c6H0 2).bind (fun p1 =>
    (BareMixin 20 p1.1 3).bind (fun p2 =>
      (withMixins 20 p2.1 0 [p1.2, p2.2]).map (fun p3 =>
        (((p3.1.alloc { proto := Value.obj 8 }).1.alloc
          { proto := Value.obj 9, props := [(PropKey.prototypeProp, Value.obj 10)] }).1.alloc
          { proto := Value.obj 10 }).1)))

def c6Heap : Heap := c6Build.getD emptyHeap

def c4H0 : Heap :=
  { objs := fun j =>
      if j = 0 then some { props := [(PropKey.prototypeProp, Value.obj 1)] }
      else if j = 1 then some {}
      else if j = 2 then some { code := some (Code.classBody 42) }
      else none,
    next := 3, calls := [] }

/-- The C4 run: `CE = Cached(E)` (wrapper `3`) is applied to base `B1 = 0`,
producing class `6` and a cache table `4` stored as a plain property on
`B1`.  Then `class B2 extends B1 {}` is created (`B2 = 8`, prototype `7`;
as in JS, `B2`'s `[[Prototype]]` is `B1`), and `CE(B2)` is called.  The
run returns (result of `CE(B1)`, result of `CE(B2)`, call log, and the
`[[Prototype]]` of `CE(B2)`'s result). -/
def c4Run : Option (ObjId × ObjId × List Nat × Value) :=
  (Cached 9 c4H0 2).bind (fun p1 =>
    (callFn 9 p1.1 p1.2 0).bind (fun p2 =>
      (callFn 9 (((p2.1.alloc { proto := Value.obj 1 }).1.alloc
          { proto := Value.obj 0, props := [(PropKey.prototypeProp, Value.obj 7)] }).1)
          p1.2 8).map (fun p3 =>
        (p2.2, p3.2, p3.1.calls,
          ((p3.1.objs p3.2).map JSObject.proto).getD Value.undef))))

def c8H0 : Heap :=
  { objs := fun j =>
      if j = 0 then some { props := [(PropKey.hasInstanceKey, Value.ordinaryHasInst)] }
      else if j = 1 then some { proto := Value.obj 0, props := [(PropKey.prototypeProp, Value.obj 2)] }
      else if j = 2 then some {}
      else if j = 3 then some { proto := Value.obj 0, code := some (Code.classBody 9) }
      else none,
    next := 4, calls := [] }

/-- The C8 scenario heap: an ES2015 host (`Function.prototype` is object
`0`, carrying the built-in `Symbol.hasInstance` method, and every function
inherits from it), a base class `1` with prototype `2`, and an
arrow-function mixin `3` (no own `.prototype` property).  `apply(1, 3)`
produces class `5` with stamped prototype `4`, and `6` is an instance. -/
def c8Heap : Heap :=
  (((apply 9 c8H0 1 3).getD (emptyHeap, 0)).1.alloc { proto := Value.obj 4 }).1

/-! ### Basic heap lemmas -/

theorem Heap.upd_objs (h : Heap) (i : ObjId) (o : JSObject) (j : ObjId) :
    (h.upd i o).objs j = if j = i then some o else h.objs j := rfl

theorem Heap.setProp_objs (h : Heap) (i : ObjId) (o : JSObject) (k : PropKey)
    (v : Value) (hi : h.objs i = some o) (j : ObjId) :
    (h.setProp i k v).objs j =
      if j = i then some { o with props := (k, v) :: o.props } else h.objs j := by
  simp [Heap.setProp, hi, Heap.upd]

theorem Heap.setProp_of_none (h : Heap) (i : ObjId) (k : PropKey) (v : Value)
    (hi : h.objs i = none) : h.setProp i k v = h := by
  simp [Heap.setProp, hi]

theorem Heap.setProto_objs (h : Heap) (i : ObjId) (o : JSObject) (v : Value)
    (hi : h.objs i = some o) (j : ObjId) :
    (h.setProto i v).objs j =
      if j = i then some { o with proto := v } else h.objs j := by
  simp [Heap.setProto, hi, Heap.upd]

theorem Heap.setProp_next (h : Heap) (i : ObjId) (k : PropKey) (v : Value) :
    (h.setProp i k v).next = h.next := by
  unfold Heap.setProp
  cases h.objs i <;> rfl

theorem Heap.setProp_calls (h : Heap) (i : ObjId) (k : PropKey) (v : Value) :
    (h.setProp i k v).calls = h.calls := by
  unfold Heap.setProp
  cases h.objs i <;> rfl

theorem Heap.setProto_next (h : Heap) (i : ObjId) (v : Value) :
    (h.setProto i v).next = h.next := by
  unfold Heap.setProto
  cases h.objs i <;> rfl

theorem Heap.setProto_calls (h : Heap) (i : ObjId) (v : Value) :
    (h.setProto i v).calls = h.calls := by
  unfold Heap.setProto
  cases h.objs i <;> rfl

theorem JSObject.getOwn_cons_self (o : JSObject) (k : PropKey) (v : Value) :
    JSObject.getOwn { o with props := (k, v) :: o.props } k = some v := by
  simp [JSObject.getOwn, List.find?]

theorem JSObject.getOwn_cons_ne (o : JSObject) (k2 k : PropKey) (v : Value)
    (hk : k2 ≠ k) :
    JSObject.getOwn { o with props := (k2, v) :: o.props } k = o.getOwn k := by
  simp [JSObject.getOwn, List.find?, hk]

/-- Writing a property under one key leaves `[[Get]]` lookups of a
different key unchanged (the prototype structure is untouched). -/
theorem getProp_setProp_ne_key (fuel : Nat) (h : Heap) (i : ObjId) (k2 k : PropKey)
    (v : Value) (hk : k2 ≠ k) :
    ∀ w, getProp fuel (h.setProp i k2 v) w k = getProp fuel h w k := by
  induction fuel with
  | zero => intro w; rfl
  | succ n ih =>
    intro w
    cases w with
    | obj j =>
      cases hi : h.objs i with
      | none => rw [Heap.setProp_of_none h i k2 v hi]
      | some o =>
        have hobjs := Heap.setProp_objs h i o k2 v hi j
        by_cases hji : j = i
        · subst hji
          rw [if_pos rfl] at hobjs
          simp only [getProp, hobjs, hi, JSObject.getOwn_cons_ne o k2 k v hk]
          cases hgo : o.getOwn k with
          | some w2 => simp [hgo]
          | none => simp [hgo, ih o.proto]
        · rw [if_neg hji] at hobjs
          simp only [getProp, hobjs]
          cases hj : h.objs j with
          | none => rfl
          | some oj =>
            simp only [hj]
            cases hgo : oj.getOwn k with
            | some w2 => simp [hgo]
            | none => simp [hgo, ih oj.proto]
    | undef => rfl
    | nullV => rfl
    | hasInstFn m => rfl
    | ordinaryHasInst => rfl

theorem unwrap_setProp_ne_key (fuel : Nat) (h : Heap) (i : ObjId) (k2 : PropKey)
    (v : Value) (hk : k2 ≠ PropKey.wrappedMixin) (w : Value) :
    unwrap fuel (h.setProp i k2 v) w = unwrap fuel h w := by
  simp [unwrap, getProp_setProp_ne_key fuel h i k2 PropKey.wrappedMixin v hk]

/-! ### Fueled lookup helper lemmas -/

theorem getProp_nullV {n : Nat} (hn : n ≠ 0) (h : Heap) (k : PropKey) :
    getProp n h Value.nullV k = some Value.undef := by
  cases n with
  | zero => exact absurd rfl hn
  | succ m => rfl

theorem getProp_found {n : Nat} (hn : n ≠ 0) {h : Heap} {i : ObjId} {k : PropKey}
    {o : JSObject} {v : Value} (hi : h.objs i = some o) (ho : o.getOwn k = some v) :
    getProp n h (Value.obj i) k = some v := by
  cases n with
  | zero => exact absurd rfl hn
  | succ m => simp [getProp, hi, ho]

theorem getProp_miss {n : Nat} (hn : n ≠ 0) {h : Heap} {i : ObjId} {k : PropKey}
    {o : JSObject} {pr : Value} (hi : h.objs i = some o) (ho : o.getOwn k = none)
    (hp : o.proto = pr) :
    getProp n h (Value.obj i) k = getProp (n - 1) h pr k := by
  cases n with
  | zero => exact absurd rfl hn
  | succ m => simp [getProp, hi, ho, hp]

/-! ### C2 — wrap canonicalization -/

/-- C2: wrap canonicalization is transitive and unwrap of a never-wrapped
function is the identity.  `f` is a never-wrapped function (no own
`_wrappedMixin`; its prototype chain — `Function.prototype` etc. — carries
no mixwith keys, modelled as a `null` prototype); `g` and `w` are wrapper
functions (no own `_wrappedMixin`), pairwise distinct.  Then
`unwrap(f) === f` in the starting heap, and after `wrap(f, g)` and
`wrap(wrap(f, g), w)` (whose results are threaded by `Option.bind`),
`unwrap(wrap(wrap(f, g), w)) === f` and `unwrap(f) === f`: every layer of
wrapping resolves to the same innermost original in a single
`_wrappedMixin` lookup. -/
theorem C2_wrap_canonicalization (k : Nat) (h : Heap) (f g w : ObjId)
    (fObj gObj wObj : JSObject)
    (hf : h.objs f = some fObj) (hf1 : fObj.getOwn PropKey.wrappedMixin = none)
    (hf2 : fObj.proto = Value.nullV)
    (hg : h.objs g = some gObj) (hg1 : gObj.getOwn PropKey.wrappedMixin = none)
    (hw : h.objs w = some wObj) (hw1 : wObj.getOwn PropKey.wrappedMixin = none)
    (hgf : g ≠ f) (hwf : w ≠ f) (hwg : w ≠ g) :
    unwrap (k + 3) h (Value.obj f) = some (Value.obj f) ∧
    ((wrap (k + 3) h f g).bind (fun p => wrap (k + 3) p.1 p.2 w)).bind
        (fun q => unwrap (k + 3) q.1 (Value.obj q.2)) = some (Value.obj f) ∧
    ((wrap (k + 3) h f g).bind (fun p => wrap (k + 3) p.1 p.2 w)).bind
        (fun q => unwrap (k + 3) q.1 (Value.obj f)) = some (Value.obj f) := by
  have hfg : f ≠ g := hgf.symm
  have hfw : f ≠ w := hwf.symm
  have hgw : g ≠ w := hwg.symm
  have succ3 : k + 3 ≠ 0 := by omega
  have A1 : (h.setProto g (Value.obj f)).objs f = some fObj := by
    simp [Heap.setProto_objs h g gObj (Value.obj f) hg, hfg, hf]
  have A2 : (h.setProto g (Value.obj f)).objs g = some { gObj with proto := Value.obj f } := by
    simp [Heap.setProto_objs h g gObj (Value.obj f) hg]
  have A3 : (h.setProto g (Value.obj f)).objs w = some wObj := by
    simp [Heap.setProto_objs h g gObj (Value.obj f) hg, hwg, hw]
  have L1 : getProp (k + 3) (h.setProto g (Value.obj f)) (Value.obj f)
      PropKey.wrappedMixin = some Value.undef := by
    rw [getProp_miss succ3 A1 hf1 hf2]
    exact getProp_nullV (by omega) _ _
  have W1 : wrap (k + 3) h f g =
      some ((h.setProto g (Value.obj f)).setProp f PropKey.wrappedMixin (Value.obj f), g) := by
    simp only [wrap]
    rw [L1]
    rfl
  have B1 : ((h.setProto g (Value.obj f)).setProp f PropKey.wrappedMixin (Value.obj f)).objs f
      = some { fObj with props := (PropKey.wrappedMixin, Value.obj f) :: fObj.props } := by
    simp [Heap.setProp_objs _ f fObj PropKey.wrappedMixin (Value.obj f) A1]
  have B2 : ((h.setProto g (Value.obj f)).setProp f PropKey.wrappedMixin (Value.obj f)).objs g
      = some { gObj with proto := Value.obj f } := by
    simp [Heap.setProp_objs _ f fObj PropKey.wrappedMixin (Value.obj f) A1, hgf, A2]
  have B3 : ((h.setProto g (Value.obj f)).setProp f PropKey.wrappedMixin (Value.obj f)).objs w
      = some wObj := by
    simp [Heap.setProp_objs _ f fObj PropKey.wrappedMixin (Value.obj f) A1, hwf, A3]
  have C1w : (((h.setProto g (Value.obj f)).setProp f PropKey.wrappedMixin
        (Value.obj f)).setProto w (Value.obj g)).objs w
      = some { wObj with proto := Value.obj g } := by
    simp [Heap.setProto_objs _ w wObj (Value.obj g) B3]
  have C2g : (((h.setProto g (Value.obj f)).setProp f PropKey.wrappedMixin
        (Value.obj f)).setProto w (Value.obj g)).objs g
      = some { gObj with proto := Value.obj f } := by
    simp [Heap.setProto_objs _ w wObj (Value.obj g) B3, hgw, B2]
  have C3f : (((h.setProto g (Value.obj f)).setProp f PropKey.wrappedMixin
        (Value.obj f)).setProto w (Value.obj g)).objs f
      = some { fObj with props := (PropKey.wrappedMixin, Value.obj f) :: fObj.props } := by
    simp [Heap.setProto_objs _ w wObj (Value.obj g) B3, hfw, B1]
  have L2 : getProp (k + 3) (((h.setProto g (Value.obj f)).setProp f PropKey.wrappedMixin
        (Value.obj f)).setProto w (Value.obj g)) (Value.obj g) PropKey.wrappedMixin
      = some (Value.obj f) := by
    rw [getProp_miss succ3 C2g hg1 rfl]
    exact getProp_found (by omega) C3f (JSObject.getOwn_cons_self fObj _ _)
  have W2 : wrap (k + 3)
      ((h.setProto g (Value.obj f)).setProp f PropKey.wrappedMixin (Value.obj f)) g w =
      some ((((h.setProto g (Value.obj f)).setProp f PropKey.wrappedMixin
        (Value.obj f)).setProto w (Value.obj g)), w) := by
    simp only [wrap]
    rw [L2]
    rfl
  have U1 : unwrap (k + 3) (((h.setProto g (Value.obj f)).setProp f PropKey.wrappedMixin
        (Value.obj f)).setProto w (Value.obj g)) (Value.obj w) = some (Value.obj f) := by
    unfold unwrap
    rw [getProp_miss succ3 C1w hw1 rfl, getProp_miss (by omega) C2g hg1 rfl]
    rw [getProp_found (by omega) C3f (JSObject.getOwn_cons_self fObj _ _)]
    rfl
  have U2 : unwrap (k + 3) (((h.setProto g (Value.obj f)).setProp f PropKey.wrappedMixin
        (Value.obj f)).setProto w (Value.obj g)) (Value.obj f) = some (Value.obj f) := by
    unfold unwrap
    rw [getProp_found succ3 C3f (JSObject.getOwn_cons_self fObj _ _)]
    rfl
  have U0 : unwrap (k + 3) h (Value.obj f) = some (Value.obj f) := by
    unfold unwrap
    rw [getProp_miss succ3 hf hf1 hf2, getProp_nullV (by omega)]
    rfl
  refine ⟨U0, ?_, ?_⟩
  · simp only [W1, Option.some_bind, W2]
    exact U1
  · simp only [W1, Option.some_bind, W2]
    exact U2

/-! ### C1 — identity round-trip of apply and isApplicationOf -/

/-- C1: identity round-trip.  For any base class `B` and extension `E`
(whose invocation `E(B)` succeeds, producing `app` in heap `h1` with
prototype object `p`), `apply(B, E)` stamps `p` with `unwrap(E)`, and then
`isApplicationOf(apply(B, E).prototype, E)` is `true`, while
`isApplicationOf(apply(B, E).prototype, X)` is `false` for every value `X`
whose canonical (unwrapped) form `ux` differs from `E`'s form `u`. -/
theorem C1_identity_roundtrip (fuel : Nat) (h h1 : Heap) (B E app p : ObjId)
    (pObj : JSObject) (u : Value)
    (hcall : callFn fuel h E B = some (h1, app))
    (hproto : getProp fuel h1 (Value.obj app) PropKey.prototypeProp = some (Value.obj p))
    (hp : h1.objs p = some pObj)
    (hu : unwrap fuel h1 (Value.obj E) = some u) :
    ∃ h2, apply fuel h B E = some (h2, app) ∧
      getProp fuel h2 (Value.obj app) PropKey.prototypeProp = some (Value.obj p) ∧
      isApplicationOf fuel h2 (Value.obj p) (Value.obj E) = some (Except.ok true) ∧
      ∀ X ux, unwrap fuel h2 X = some ux → ux ≠ u →
        isApplicationOf fuel h2 (Value.obj p) X = some (Except.ok false) := by
  have hown : (h1.setProp p PropKey.appliedMixin u).getOwn p PropKey.appliedMixin
      = some u := by
    unfold Heap.getOwn
    rw [Heap.setProp_objs h1 p pObj PropKey.appliedMixin u hp p, if_pos rfl]
    exact JSObject.getOwn_cons_self pObj _ _
  refine ⟨h1.setProp p PropKey.appliedMixin u, ?_, ?_, ?_, ?_⟩
  · simp only [apply, hcall]
    simp only [stampApplied, hu, hproto]
    rfl
  · rw [getProp_setProp_ne_key fuel h1 p PropKey.appliedMixin PropKey.prototypeProp u
      (by decide) (Value.obj app)]
    exact hproto
  · simp only [isApplicationOf]
    rw [hown, unwrap_setProp_ne_key fuel h1 p PropKey.appliedMixin u (by decide)
      (Value.obj E), hu]
    simp
  · intro X ux hX hne
    have hne2 : u ≠ ux := Ne.symm hne
    simp only [isApplicationOf]
    rw [hown, hX]
    simp [hne2]

/-- Witness for C1: a concrete base class (`0`, prototype object `1`) and a
concrete raw extension (`2`); its application produces class `4` with
prototype object `3`. -/
theorem C1_identity_roundtrip_witness :
    callFn 5 c1Heap 2 0 = some (c1H1, 4) ∧
    c1H1.objs 3 = some { proto := Value.obj 1 } ∧
    ∃ h2, apply 5 c1Heap 0 2 = some (h2, 4) ∧
      getProp 5 h2 (Value.obj 4) PropKey.prototypeProp = some (Value.obj 3) ∧
      isApplicationOf 5 h2 (Value.obj 3) (Value.obj 2) = some (Except.ok true) ∧
      ∀ X ux, unwrap 5 h2 X = some ux → ux ≠ Value.obj 2 →
        isApplicationOf 5 h2 (Value.obj 3) X = some (Except.ok false) :=
  ⟨rfl, by decide,
    C1_identity_roundtrip 5 c1Heap c1H1 0 2 4 3 { proto := Value.obj 1 } (Value.obj 2)
      rfl (by decide) (by decide) (by decide)⟩

/-! ### C5 — DeDupe is a no-op on bases that already have the mixin -/

/-- C5: de-dup no-op.  `w` is the wrapper `DeDupe(E)` returns (its call
behaviour is the closure `Code.dedupeOf E`).  If `E`'s canonical form
already appears as an applied-marker on `B.prototype`'s prototype chain
(`hasMixin(B.prototype, E)` is `true`), then `DeDupe(E)(B)` returns `B`
itself with the heap unchanged — in particular `E`'s body is not invoked;
otherwise it delegates to `E(B)`. -/
theorem C5_dedupe_noop (k : Nat) (h : Heap) (w E B : ObjId) (wObj : JSObject)
    (pv : Value) (r : Bool)
    (hw : h.objs w = some wObj) (hwc : wObj.code = some (Code.dedupeOf E))
    (hpv : getProp (k + 1) h (Value.obj B) PropKey.prototypeProp = some pv)
    (hr : hasMixin (k + 1) (k + 1) h pv (Value.obj E) = some (Except.ok r)) :
    callFn (k + 2) h w B = if r then some (h, B) else callFn (k + 1) h E B := by
  have e : k + 2 = (k + 1) + 1 := rfl
  rw [e]
  simp only [callFn, hw, hwc, hpv, hr]
  cases r with
  | true => simp
  | false => simp

/-- Witness for C5: base class `0` whose prototype object `1` already
carries the applied-marker of extension `2`; the deduping wrapper `3`
returns the base unchanged. -/
theorem C5_dedupe_noop_witness :
    getProp 2 c5Heap (Value.obj 0) PropKey.prototypeProp = some (Value.obj 1) ∧
    hasMixin 2 2 c5Heap (Value.obj 1) (Value.obj 2) = some (Except.ok true) ∧
    callFn 3 c5Heap 3 0 = if true then some (c5Heap, 0) else callFn 2 c5Heap 2 0 :=
  ⟨by decide, by decide,
    C5_dedupe_noop 1 c5Heap 3 2 0 { code := some (Code.dedupeOf 2) } (Value.obj 1) true
      (by decide) (by decide) (by decide) (by decide)⟩

/-- Witness for C2: three concrete function objects `0` (the original),
`1` and `2` (the wrappers). -/
theorem C2_wrap_canonicalization_witness :
    unwrap 3 c2Heap (Value.obj 0) = some (Value.obj 0) ∧
    ((wrap 3 c2Heap 0 1).bind (fun p => wrap 3 p.1 p.2 2)).bind
        (fun q => unwrap 3 q.1 (Value.obj q.2)) = some (Value.obj 0) ∧
    ((wrap 3 c2Heap 0 1).bind (fun p => wrap 3 p.1 p.2 2)).bind
        (fun q => unwrap 3 q.1 (Value.obj 0)) = some (Value.obj 0) :=
  C2_wrap_canonicalization 0 c2Heap 0 1 2 {} {} {} (by decide) (by decide) (by decide)
    (by decide) (by decide) (by decide) (by decide) (by decide) (by decide) (by decide)

/-! ### C10 — the composed decorator canonicalizes to the raw mixin -/

theorem Heap.alloc_objs (h : Heap) (o : JSObject) (j : ObjId) :
    (h.alloc o).1.objs j = if j = h.next then some o else h.objs j := rfl

theorem Heap.alloc_next (h : Heap) (o : JSObject) : (h.alloc o).1.next = h.next + 1 := rfl

theorem BareMixin_eq (fuel : Nat) (h : Heap) (m : ObjId) :
    BareMixin fuel h m = wrap fuel (h.alloc { code := some (Code.bareOf m) }).1 m h.next := rfl

theorem Cached_eq (fuel : Nat) (h : Heap) (m : ObjId) :
    Cached fuel h m = wrap fuel (h.alloc { code := some (Code.cachedOf m) }).1 m h.next := rfl

theorem DeDupe_eq (fuel : Nat) (h : Heap) (m : ObjId) :
    DeDupe fuel h m = wrap fuel (h.alloc { code := some (Code.dedupeOf m) }).1 m h.next := rfl

/-- C10: for a never-wrapped raw mixin `m` (no own `_wrappedMixin`, a
prototype chain without mixwith keys, modelled as `null`),
`Mixin(m) = DeDupe(Cached(BareMixin(m)))` allocates the three wrappers at
`h.next`, `h.next + 1`, `h.next + 2`, and in the resulting heap
`unwrap(BareMixin(m)) = unwrap(Cached(BareMixin(m))) = unwrap(Mixin(m)) = m`;
consequently `isApplicationOf` queries using the fully decorated value and
queries using the raw mixin are interchangeable. -/
theorem C10_mixin_canonicalizes (k : Nat) (h : Heap) (m : ObjId) (mObj : JSObject)
    (hm : h.objs m = some mObj) (hm1 : mObj.getOwn PropKey.wrappedMixin = none)
    (hm2 : mObj.proto = Value.nullV) (hlt : m < h.next) :
    ∃ h3,
      Mixin (k + 4) h m = some (h3, h.next + 2) ∧
      unwrap (k + 4) h3 (Value.obj h.next) = some (Value.obj m) ∧
      unwrap (k + 4) h3 (Value.obj (h.next + 1)) = some (Value.obj m) ∧
      unwrap (k + 4) h3 (Value.obj (h.next + 2)) = some (Value.obj m) ∧
      ∀ pv, isApplicationOf (k + 4) h3 pv (Value.obj (h.next + 2)) =
        isApplicationOf (k + 4) h3 pv (Value.obj m) := by
  have hmn : m ≠ h.next := Nat.ne_of_lt hlt
  have hmn1 : m ≠ h.next + 1 := Nat.ne_of_lt (Nat.lt_succ_of_lt hlt)
  have hmn2 : m ≠ h.next + 2 := Nat.ne_of_lt (Nat.lt_succ_of_lt (Nat.lt_succ_of_lt hlt))
  have h01 : h.next ≠ h.next + 1 := Nat.ne_of_lt (Nat.lt_succ_self _)
  have h02 : h.next ≠ h.next + 2 := Nat.ne_of_lt (Nat.lt_succ_of_lt (Nat.lt_succ_self _))
  have h12 : h.next + 1 ≠ h.next + 2 := Nat.ne_of_lt (Nat.lt_succ_self _)
  have hA1w : (h.alloc { code := some (Code.bareOf m) }).1.objs h.next = some { code := some (Code.bareOf m) } := by
    simp [Heap.alloc_objs]
  have hA1m : (h.alloc { code := some (Code.bareOf m) }).1.objs m = some mObj := by
    simp [Heap.alloc_objs, hmn, hm]
  have hB1w : ((h.alloc { code := some (Code.bareOf m) }).1.setProto h.next (Value.obj m)).objs h.next = some { proto := Value.obj m, code := some (Code.bareOf m) } := by
    simp [Heap.setProto_objs _ h.next _ (Value.obj m) hA1w]
  have hB1m : ((h.alloc { code := some (Code.bareOf m) }).1.setProto h.next (Value.obj m)).objs m = some mObj := by
    simp [Heap.setProto_objs _ h.next _ (Value.obj m) hA1w, hmn, hA1m]
  have lookup1 : getProp (k + 4) ((h.alloc { code := some (Code.bareOf m) }).1.setProto h.next (Value.obj m)) (Value.obj m) PropKey.wrappedMixin
      = some Value.undef := by
    rw [getProp_miss (by omega) hB1m hm1 hm2]
    exact getProp_nullV (by omega) _ _
  have W1 : BareMixin (k + 4) h m = some ((((h.alloc { code := some (Code.bareOf m) }).1.setProto h.next (Value.obj m)).setProp m PropKey.wrappedMixin (Value.obj m)), h.next) := by
    rw [BareMixin_eq]
    simp only [wrap]
    rw [lookup1]
    rfl
  have hH1w : (((h.alloc { code := some (Code.bareOf m) }).1.setProto h.next (Value.obj m)).setProp m PropKey.wrappedMixin (Value.obj m)).objs h.next = some { proto := Value.obj m, code := some (Code.bareOf m) } := by
    simp [Heap.setProp_objs _ m mObj PropKey.wrappedMixin (Value.obj m) hB1m, hmn.symm, hB1w]
  have hH1m : (((h.alloc { code := some (Code.bareOf m) }).1.setProto h.next (Value.obj m)).setProp m PropKey.wrappedMixin (Value.obj m)).objs m = some { mObj with props := (PropKey.wrappedMixin, Value.obj m) :: mObj.props } := by
    simp [Heap.setProp_objs _ m mObj PropKey.wrappedMixin (Value.obj m) hB1m]
  have hH1next : (((h.alloc { code := some (Code.bareOf m) }).1.setProto h.next (Value.obj m)).setProp m PropKey.wrappedMixin (Value.obj m)).next = h.next + 1 := by
    simp [Heap.setProp_next, Heap.setProto_next, Heap.alloc_next]
  have hA2w2 : ((((h.alloc { code := some (Code.bareOf m) }).1.setProto h.next (Value.obj m)).setProp m PropKey.wrappedMixin (Value.obj m)).alloc { code := some (Code.cachedOf h.next) }).1.objs (h.next + 1) = some { code := some (Code.cachedOf h.next) } := by
    simp [Heap.alloc_objs, hH1next]
  have hA2w1 : ((((h.alloc { code := some (Code.bareOf m) }).1.setProto h.next (Value.obj m)).setProp m PropKey.wrappedMixin (Value.obj m)).alloc { code := some (Code.cachedOf h.next) }).1.objs h.next = some { proto := Value.obj m, code := some (Code.bareOf m) } := by
    simp [Heap.alloc_objs, hH1next, h01, hH1w]
  have hA2m : ((((h.alloc { code := some (Code.bareOf m) }).1.setProto h.next (Value.obj m)).setProp m PropKey.wrappedMixin (Value.obj m)).alloc { code := some (Code.cachedOf h.next) }).1.objs m = some { mObj with props := (PropKey.wrappedMixin, Value.obj m) :: mObj.props } := by
    simp [Heap.alloc_objs, hH1next, hmn1, hH1m]
  have hB2w2 : (((((h.alloc { code := some (Code.bareOf m) }).1.setProto h.next (Value.obj m)).setProp m PropKey.wrappedMixin (Value.obj m)).alloc { code := some (Code.cachedOf h.next) }).1.setProto (h.next + 1) (Value.obj h.next)).objs (h.next + 1) = some { proto := Value.obj h.next, code := some (Code.cachedOf h.next) } := by
    simp [Heap.setProto_objs _ (h.next + 1) _ (Value.obj h.next) hA2w2]
  have hB2w1 : (((((h.alloc { code := some (Code.bareOf m) }).1.setProto h.next (Value.obj m)).setProp m PropKey.wrappedMixin (Value.obj m)).alloc { code := some (Code.cachedOf h.next) }).1.setProto (h.next + 1) (Value.obj h.next)).objs h.next = some { proto := Value.obj m, code := some (Code.bareOf m) } := by
    simp [Heap.setProto_objs _ (h.next + 1) _ (Value.obj h.next) hA2w2, h01, hA2w1]
  have hB2m : (((((h.alloc { code := some (Code.bareOf m) }).1.setProto h.next (Value.obj m)).setProp m PropKey.wrappedMixin (Value.obj m)).alloc { code := some (Code.cachedOf h.next) }).1.setProto (h.next + 1) (Value.obj h.next)).objs m = some { mObj with props := (PropKey.wrappedMixin, Value.obj m) :: mObj.props } := by
    simp [Heap.setProto_objs _ (h.next + 1) _ (Value.obj h.next) hA2w2, hmn1, hA2m]
  have lookup2 : getProp (k + 4) (((((h.alloc { code := some (Code.bareOf m) }).1.setProto h.next (Value.obj m)).setProp m PropKey.wrappedMixin (Value.obj m)).alloc { code := some (Code.cachedOf h.next) }).1.setProto (h.next + 1) (Value.obj h.next)) (Value.obj h.next) PropKey.wrappedMixin
      = some (Value.obj m) := by
    rw [getProp_miss (by omega) hB2w1 rfl rfl]
    exact getProp_found (by omega) hB2m (JSObject.getOwn_cons_self mObj _ _)
  have W2 : Cached (k + 4) (((h.alloc { code := some (Code.bareOf m) }).1.setProto h.next (Value.obj m)).setProp m PropKey.wrappedMixin (Value.obj m)) h.next = some ((((((h.alloc { code := some (Code.bareOf m) }).1.setProto h.next (Value.obj m)).setProp m PropKey.wrappedMixin (Value.obj m)).alloc { code := some (Code.cachedOf h.next) }).1.setProto (h.next + 1) (Value.obj h.next)), h.next + 1) := by
    rw [Cached_eq, hH1next]
    simp only [wrap]
    rw [lookup2]
    rfl
  have hB2next : (((((h.alloc { code := some (Code.bareOf m) }).1.setProto h.next (Value.obj m)).setProp m PropKey.wrappedMixin (Value.obj m)).alloc { code := some (Code.cachedOf h.next) }).1.setProto (h.next + 1) (Value.obj h.next)).next = h.next + 2 := by
    simp [Heap.setProto_next, Heap.alloc_next, hH1next]
  have hA3w3 : ((((((h.alloc { code := some (Code.bareOf m) }).1.setProto h.next (Value.obj m)).setProp m PropKey.wrappedMixin (Value.obj m)).alloc { code := some (Code.cachedOf h.next) }).1.setProto (h.next + 1) (Value.obj h.next)).alloc { code := some (Code.dedupeOf (h.next + 1)) }).1.objs (h.next + 2)
      = some { code := some (Code.dedupeOf (h.next + 1)) } := by
    simp [Heap.alloc_objs, hB2next]
  have hA3w2 : ((((((h.alloc { code := some (Code.bareOf m) }).1.setProto h.next (Value.obj m)).setProp m PropKey.wrappedMixin (Value.obj m)).alloc { code := some (Code.cachedOf h.next) }).1.setProto (h.next + 1) (Value.obj h.next)).alloc { code := some (Code.dedupeOf (h.next + 1)) }).1.objs (h.next + 1) = some { proto := Value.obj h.next, code := some (Code.cachedOf h.next) } := by
    simp [Heap.alloc_objs, hB2next, h12, hB2w2]
  have hA3w1 : ((((((h.alloc { code := some (Code.bareOf m) }).1.setProto h.next (Value.obj m)).setProp m PropKey.wrappedMixin (Value.obj m)).alloc { code := some (Code.cachedOf h.next) }).1.setProto (h.next + 1) (Value.obj h.next)).alloc { code := some (Code.dedupeOf (h.next + 1)) }).1.objs h.next = some { proto := Value.obj m, code := some (Code.bareOf m) } := by
    simp [Heap.alloc_objs, hB2next, h02, hB2w1]
  have hA3m : ((((((h.alloc { code := some (Code.bareOf m) }).1.setProto h.next (Value.obj m)).setProp m PropKey.wrappedMixin (Value.obj m)).alloc { code := some (Code.cachedOf h.next) }).1.setProto (h.next + 1) (Value.obj h.next)).alloc { code := some (Code.dedupeOf (h.next + 1)) }).1.objs m = some { mObj with props := (PropKey.wrappedMixin, Value.obj m) :: mObj.props } := by
    simp [Heap.alloc_objs, hB2next, hmn2, hB2m]
  have hB3w3 : (((((((h.alloc { code := some (Code.bareOf m) }).1.setProto h.next (Value.obj m)).setProp m PropKey.wrappedMixin (Value.obj m)).alloc { code := some (Code.cachedOf h.next) }).1.setProto (h.next + 1) (Value.obj h.next)).alloc { code := some (Code.dedupeOf (h.next + 1)) }).1.setProto (h.next + 2) (Value.obj (h.next + 1))).objs (h.next + 2) = some { proto := Value.obj (h.next + 1), code := some (Code.dedupeOf (h.next + 1)) } := by
    simp [Heap.setProto_objs _ (h.next + 2) _ (Value.obj (h.next + 1)) hA3w3]
  have hB3w2 : (((((((h.alloc { code := some (Code.bareOf m) }).1.setProto h.next (Value.obj m)).setProp m PropKey.wrappedMixin (Value.obj m)).alloc { code := some (Code.cachedOf h.next) }).1.setProto (h.next + 1) (Value.obj h.next)).alloc { code := some (Code.dedupeOf (h.next + 1)) }).1.setProto (h.next + 2) (Value.obj (h.next + 1))).objs (h.next + 1) = some { proto := Value.obj h.next, code := some (Code.cachedOf h.next) } := by
    simp [Heap.setProto_objs _ (h.next + 2) _ (Value.obj (h.next + 1)) hA3w3, h12, hA3w2]
  have hB3w1 : (((((((h.alloc { code := some (Code.bareOf m) }).1.setProto h.next (Value.obj m)).setProp m PropKey.wrappedMixin (Value.obj m)).alloc { code := some (Code.cachedOf h.next) }).1.setProto (h.next + 1) (Value.obj h.next)).alloc { code := some (Code.dedupeOf (h.next + 1)) }).1.setProto (h.next + 2) (Value.obj (h.next + 1))).objs h.next = some { proto := Value.obj m, code := some (Code.bareOf m) } := by
    simp [Heap.setProto_objs _ (h.next + 2) _ (Value.obj (h.next + 1)) hA3w3, h02, hA3w1]
  have hB3m : (((((((h.alloc { code := some (Code.bareOf m) }).1.setProto h.next (Value.obj m)).setProp m PropKey.wrappedMixin (Value.obj m)).alloc { code := some (Code.cachedOf h.next) }).1.setProto (h.next + 1) (Value.obj h.next)).alloc { code := some (Code.dedupeOf (h.next + 1)) }).1.setProto (h.next + 2) (Value.obj (h.next + 1))).objs m = some { mObj with props := (PropKey.wrappedMixin, Value.obj m) :: mObj.props } := by
    simp [Heap.setProto_objs _ (h.next + 2) _ (Value.obj (h.next + 1)) hA3w3, hmn2, hA3m]
  have lookup3 : getProp (k + 4) (((((((h.alloc { code := some (Code.bareOf m) }).1.setProto h.next (Value.obj m)).setProp m PropKey.wrappedMixin (Value.obj m)).alloc { code := some (Code.cachedOf h.next) }).1.setProto (h.next + 1) (Value.obj h.next)).alloc { code := some (Code.dedupeOf (h.next + 1)) }).1.setProto (h.next + 2) (Value.obj (h.next + 1))) (Value.obj (h.next + 1)) PropKey.wrappedMixin
      = some (Value.obj m) := by
    rw [getProp_miss (by omega) hB3w2 rfl rfl, getProp_miss (by omega) hB3w1 rfl rfl]
    exact getProp_found (by omega) hB3m (JSObject.getOwn_cons_self mObj _ _)
  have W3 : DeDupe (k + 4) (((((h.alloc { code := some (Code.bareOf m) }).1.setProto h.next (Value.obj m)).setProp m PropKey.wrappedMixin (Value.obj m)).alloc { code := some (Code.cachedOf h.next) }).1.setProto (h.next + 1) (Value.obj h.next)) (h.next + 1) = some ((((((((h.alloc { code := some (Code.bareOf m) }).1.setProto h.next (Value.obj m)).setProp m PropKey.wrappedMixin (Value.obj m)).alloc { code := some (Code.cachedOf h.next) }).1.setProto (h.next + 1) (Value.obj h.next)).alloc { code := some (Code.dedupeOf (h.next + 1)) }).1.setProto (h.next + 2) (Value.obj (h.next + 1))), h.next + 2) := by
    rw [DeDupe_eq, hB2next]
    simp only [wrap]
    rw [lookup3]
    rfl
  have Um : unwrap (k + 4) (((((((h.alloc { code := some (Code.bareOf m) }).1.setProto h.next (Value.obj m)).setProp m PropKey.wrappedMixin (Value.obj m)).alloc { code := some (Code.cachedOf h.next) }).1.setProto (h.next + 1) (Value.obj h.next)).alloc { code := some (Code.dedupeOf (h.next + 1)) }).1.setProto (h.next + 2) (Value.obj (h.next + 1))) (Value.obj m) = some (Value.obj m) := by
    unfold unwrap
    rw [getProp_found (by omega) hB3m (JSObject.getOwn_cons_self mObj _ _)]
    rfl
  have U3 : unwrap (k + 4) (((((((h.alloc { code := some (Code.bareOf m) }).1.setProto h.next (Value.obj m)).setProp m PropKey.wrappedMixin (Value.obj m)).alloc { code := some (Code.cachedOf h.next) }).1.setProto (h.next + 1) (Value.obj h.next)).alloc { code := some (Code.dedupeOf (h.next + 1)) }).1.setProto (h.next + 2) (Value.obj (h.next + 1))) (Value.obj (h.next + 2)) = some (Value.obj m) := by
    unfold unwrap
    rw [getProp_miss (by omega) hB3w3 rfl rfl, getProp_miss (by omega) hB3w2 rfl rfl,
      getProp_miss (by omega) hB3w1 rfl rfl]
    rw [getProp_found (by omega) hB3m (JSObject.getOwn_cons_self mObj _ _)]
    rfl
  refine ⟨(((((((h.alloc { code := some (Code.bareOf m) }).1.setProto h.next (Value.obj m)).setProp m PropKey.wrappedMixin (Value.obj m)).alloc { code := some (Code.cachedOf h.next) }).1.setProto (h.next + 1) (Value.obj h.next)).alloc { code := some (Code.dedupeOf (h.next + 1)) }).1.setProto (h.next + 2) (Value.obj (h.next + 1))), ?_, ?_, ?_, U3, ?_⟩
  · simp only [Mixin, W1, W2, W3]
  · unfold unwrap
    rw [getProp_miss (by omega) hB3w1 rfl rfl]
    rw [getProp_found (by omega) hB3m (JSObject.getOwn_cons_self mObj _ _)]
    rfl
  · unfold unwrap
    rw [getProp_miss (by omega) hB3w2 rfl rfl, getProp_miss (by omega) hB3w1 rfl rfl]
    rw [getProp_found (by omega) hB3m (JSObject.getOwn_cons_self mObj _ _)]
    rfl
  · intro pv
    cases pv with
    | nullV => rfl
    | undef => rfl
    | hasInstFn q => rfl
    | ordinaryHasInst => rfl
    | obj i =>
      simp only [isApplicationOf, U3, Um]

/-- Witness for C10: a single raw mixin `0` in an otherwise empty heap. -/
theorem C10_mixin_canonicalizes_witness :
    c10Heap.objs 0 = some {} ∧
    ∃ h3,
      Mixin 4 c10Heap 0 = some (h3, 3) ∧
      unwrap 4 h3 (Value.obj 1) = some (Value.obj 0) ∧
      unwrap 4 h3 (Value.obj 2) = some (Value.obj 0) ∧
      unwrap 4 h3 (Value.obj 3) = some (Value.obj 0) ∧
      ∀ pv, isApplicationOf 4 h3 pv (Value.obj 3) =
        isApplicationOf 4 h3 pv (Value.obj 0) :=
  ⟨by decide,
    C10_mixin_canonicalizes 0 c10Heap 0 {} (by decide) (by decide) (by decide) (by decide)⟩

/-! ### C3 — cache stability -/

theorem Heap.alloc_snd (h : Heap) (o : JSObject) : (h.alloc o).2 = h.next := rfl

theorem Heap.alloc_calls (h : Heap) (o : JSObject) : (h.alloc o).1.calls = h.calls := rfl

theorem mapSet_objs (h : Heap) (i : ObjId) (o : JSObject) (k v : ObjId)
    (hi : h.objs i = some o) (j : ObjId) :
    (mapSet h i k v).objs j =
      if j = i then some { o with entries := (k, v) :: o.entries } else h.objs j := by
  simp [mapSet, hi, Heap.upd]

theorem mapSet_calls (h : Heap) (i : ObjId) (k v : ObjId) :
    (mapSet h i k v).calls = h.calls := by
  unfold mapSet
  cases h.objs i <;> rfl

theorem mkSubclass_objs (h : Heap) (b : Nat) (s : ObjId) (p c : ObjId)
    (hp : p = h.next) (hc : c = h.next + 1) (j : ObjId) :
    (mkSubclass h b s).1.objs j =
      if j = c then some { proto := Value.obj s, props := [(PropKey.prototypeProp, Value.obj p)] }
      else if j = p then some { proto := superProtoOf h s }
      else h.objs j := by
  subst hp
  subst hc
  rfl

theorem mkSubclass_calls (h : Heap) (b : Nat) (s : ObjId) :
    (mkSubclass h b s).1.calls = h.calls ++ [b] := rfl

theorem mkSubclass_pair (h : Heap) (b : Nat) (s : ObjId) (c : ObjId)
    (hc : c = h.next + 1) : mkSubclass h b s = ((mkSubclass h b s).1, c) := by
  subst hc
  rfl

/-- C3: cache stability.  `w` is the wrapper `Cached(E)` returns (after
`wrap`, its heap object is exactly the closure with behaviour
`Code.cachedOf E` and prototype `E`).  `E` is a raw extension
(`Code.classBody b`), and the base `B` carries no cache table yet (the
inherited-property lookup of `_cachedApplications` is `undefined`).  Then
the first call `Cached(E)(B)` lazily creates the cache table (at
`h1.next`), invokes `E`'s body exactly once (the call log grows by `[b]`),
memoizes and returns the fresh class `h1.next + 2`; the second call
returns the reference-identical class from the SAME heap — no new class,
no second invocation of `E`'s body. -/
theorem C3_cache_stability (k : Nat) (h1 : Heap) (w E B : ObjId) (b : Nat)
    (bObj eObj : JSObject)
    (hw : h1.objs w = some { proto := Value.obj E, code := some (Code.cachedOf E) })
    (hB : h1.objs B = some bObj)
    (hE : h1.objs E = some eObj) (hEc : eObj.code = some (Code.classBody b))
    (hlook : getProp (k + 1) h1 (Value.obj B) PropKey.cachedApplications = some Value.undef)
    (hBlt : B < h1.next) (hElt : E < h1.next) (hwlt : w < h1.next)
    (hBE : B ≠ E) (hBw : B ≠ w) :
    ∃ h4,
      callFn (k + 2) h1 w B = some (h4, h1.next + 2) ∧
      callFn (k + 2) h4 w B = some (h4, h1.next + 2) ∧
      h4.calls = h1.calls ++ [b] ∧
      h4.objs (h1.next + 2) = some { proto := Value.obj B, props := [(PropKey.prototypeProp, Value.obj (h1.next + 1))] } := by
  have hBn : B ≠ h1.next := Nat.ne_of_lt hBlt
  have hBn1 : B ≠ h1.next + 1 := Nat.ne_of_lt (Nat.lt_succ_of_lt hBlt)
  have hBn2 : B ≠ h1.next + 2 := Nat.ne_of_lt (Nat.lt_succ_of_lt (Nat.lt_succ_of_lt hBlt))
  have hEn : E ≠ h1.next := Nat.ne_of_lt hElt
  have hEn1 : E ≠ h1.next + 1 := Nat.ne_of_lt (Nat.lt_succ_of_lt hElt)
  have hEn2 : E ≠ h1.next + 2 := Nat.ne_of_lt (Nat.lt_succ_of_lt (Nat.lt_succ_of_lt hElt))
  have hwn : w ≠ h1.next := Nat.ne_of_lt hwlt
  have hwn1 : w ≠ h1.next + 1 := Nat.ne_of_lt (Nat.lt_succ_of_lt hwlt)
  have hwn2 : w ≠ h1.next + 2 := Nat.ne_of_lt (Nat.lt_succ_of_lt (Nat.lt_succ_of_lt hwlt))
  have hn01 : h1.next ≠ h1.next + 1 := Nat.ne_of_lt (Nat.lt_succ_self _)
  have hn02 : h1.next ≠ h1.next + 2 := Nat.ne_of_lt (Nat.lt_succ_of_lt (Nat.lt_succ_self _))
  have hn12 : h1.next + 1 ≠ h1.next + 2 := Nat.ne_of_lt (Nat.lt_succ_self _)
  have hH1AB : (h1.alloc {}).1.objs B = some bObj := by
    simp [Heap.alloc_objs, hBn, hB]
  have hH2B : ((h1.alloc {}).1.setProp B PropKey.cachedApplications (Value.obj h1.next)).objs B = some { bObj with props := (PropKey.cachedApplications, Value.obj h1.next) :: bObj.props } := by
    simp [Heap.setProp_objs _ B bObj PropKey.cachedApplications (Value.obj h1.next) hH1AB]
  have hH2E : ((h1.alloc {}).1.setProp B PropKey.cachedApplications (Value.obj h1.next)).objs E = some eObj := by
    simp [Heap.setProp_objs _ B bObj PropKey.cachedApplications (Value.obj h1.next) hH1AB,
      hBE.symm, Heap.alloc_objs, hEn, hE]
  have hH2w : ((h1.alloc {}).1.setProp B PropKey.cachedApplications (Value.obj h1.next)).objs w = some { proto := Value.obj E, code := some (Code.cachedOf E) } := by
    simp [Heap.setProp_objs _ B bObj PropKey.cachedApplications (Value.obj h1.next) hH1AB,
      hBw.symm, Heap.alloc_objs, hwn, hw]
  have hH2map : ((h1.alloc {}).1.setProp B PropKey.cachedApplications (Value.obj h1.next)).objs h1.next = some ({} : JSObject) := by
    simp [Heap.setProp_objs _ B bObj PropKey.cachedApplications (Value.obj h1.next) hH1AB,
      hBn.symm, Heap.alloc_objs]
  have hH2next : ((h1.alloc {}).1.setProp B PropKey.cachedApplications (Value.obj h1.next)).next = h1.next + 1 := by
    simp [Heap.setProp_next, Heap.alloc_next]
  have hH2calls : ((h1.alloc {}).1.setProp B PropKey.cachedApplications (Value.obj h1.next)).calls = h1.calls := by
    simp [Heap.setProp_calls, Heap.alloc_calls]
  obtain ⟨h3, hMS⟩ : ∃ p, mkSubclass ((h1.alloc {}).1.setProp B PropKey.cachedApplications (Value.obj h1.next)) b B = (p, h1.next + 2) :=
    ⟨(mkSubclass ((h1.alloc {}).1.setProp B PropKey.cachedApplications (Value.obj h1.next)) b B).1, mkSubclass_pair ((h1.alloc {}).1.setProp B PropKey.cachedApplications (Value.obj h1.next)) b B (h1.next + 2) (by rw [hH2next])⟩
  have hMSobjs : ∀ j, h3.objs j =
      if j = h1.next + 2 then some { proto := Value.obj B, props := [(PropKey.prototypeProp, Value.obj (h1.next + 1))] }
      else if j = h1.next + 1 then some { proto := superProtoOf ((h1.alloc {}).1.setProp B PropKey.cachedApplications (Value.obj h1.next)) B }
      else ((h1.alloc {}).1.setProp B PropKey.cachedApplications (Value.obj h1.next)).objs j := by
    intro j
    have h0 := mkSubclass_objs ((h1.alloc {}).1.setProp B PropKey.cachedApplications (Value.obj h1.next)) b B (h1.next + 1) (h1.next + 2)
      (by rw [hH2next]) (by rw [hH2next]) j
    rw [hMS] at h0
    exact h0
  have hH3calls : h3.calls = h1.calls ++ [b] := by
    have h0 := mkSubclass_calls ((h1.alloc {}).1.setProp B PropKey.cachedApplications (Value.obj h1.next)) b B
    rw [hMS] at h0
    rw [show h3.calls = (h3, h1.next + 2).1.calls from rfl, h0, hH2calls]
  have hH3map : h3.objs h1.next = some ({} : JSObject) := by
    simp [hMSobjs, hn01, hn02, hH2map]
  have hH3B : h3.objs B = some { bObj with props := (PropKey.cachedApplications, Value.obj h1.next) :: bObj.props } := by
    simp [hMSobjs, hBn1, hBn2, hH2B]
  have hH3w : h3.objs w = some { proto := Value.obj E, code := some (Code.cachedOf E) } := by
    simp [hMSobjs, hwn1, hwn2, hH2w]
  have hH3app : h3.objs (h1.next + 2) = some { proto := Value.obj B, props := [(PropKey.prototypeProp, Value.obj (h1.next + 1))] } := by
    simp [hMSobjs]
  have hH4objs := mapSet_objs h3 h1.next ({} : JSObject) E (h1.next + 2) hH3map
  have hH4w : (mapSet h3 h1.next E (h1.next + 2)).objs w = some { proto := Value.obj E, code := some (Code.cachedOf E) } := by
    simp [hH4objs, hwn, hH3w]
  have hH4B : (mapSet h3 h1.next E (h1.next + 2)).objs B = some { bObj with props := (PropKey.cachedApplications, Value.obj h1.next) :: bObj.props } := by
    simp [hH4objs, hBn, hH3B]
  have hH4map : (mapSet h3 h1.next E (h1.next + 2)).objs h1.next
      = some { entries := [(E, h1.next + 2)] } := by
    simp [hH4objs]
  have hH4app : (mapSet h3 h1.next E (h1.next + 2)).objs (h1.next + 2) = some { proto := Value.obj B, props := [(PropKey.prototypeProp, Value.obj (h1.next + 1))] } := by
    simp [hH4objs, hn02.symm, hH3app]
  have hH4calls : (mapSet h3 h1.next E (h1.next + 2)).calls = h1.calls ++ [b] := by
    rw [mapSet_calls, hH3calls]
  have lookupB2 : getProp (k + 1) (mapSet h3 h1.next E (h1.next + 2)) (Value.obj B)
      PropKey.cachedApplications = some (Value.obj h1.next) :=
    getProp_found (by omega) hH4B (JSObject.getOwn_cons_self bObj _ _)
  have mg : mapGet (mapSet h3 h1.next E (h1.next + 2)) h1.next E = some (h1.next + 2) := by
    simp [mapGet, hH4map, List.find?]
  have e : k + 2 = (k + 1) + 1 := rfl
  refine ⟨mapSet h3 h1.next E (h1.next + 2), ?_, ?_, hH4calls, hH4app⟩
  · rw [e]
    simp only [callFn, hw, hlook, Heap.alloc_snd, hH2E, hEc, hMS]
  · rw [e]
    simp only [callFn, hH4w, lookupB2, mg]

/-- Witness for C3: `Cached` applied to the raw extension `2`, then called
twice on the base class `0` (prototype object `1`).  The wrapper is `3`,
the cache table `4`, the memoized class `6` (prototype object `5`). -/
theorem C3_cache_stability_witness :
    Cached 9 c3H0 2 = some (c3H1, 3) ∧
    c3H1.objs 3 = some { proto := Value.obj 2, code := some (Code.cachedOf 2) } ∧
    getProp 2 c3H1 (Value.obj 0) PropKey.cachedApplications = some Value.undef ∧
    ∃ h4,
      callFn 3 c3H1 3 0 = some (h4, 6) ∧
      callFn 3 h4 3 0 = some (h4, 6) ∧
      h4.calls = [] ++ [9] ∧
      h4.objs 6 = some { proto := Value.obj 0, props := [(PropKey.prototypeProp, Value.obj 5)] } :=
  ⟨rfl, by decide, by decide,
    C3_cache_stability 1 c3H1 3 2 0 9
      { props := [(PropKey.prototypeProp, Value.obj 1)] }
      { props := [(PropKey.wrappedMixin, Value.obj 2)], code := some (Code.classBody 9) }
      (by decide) (by decide) (by decide) (by decide) (by decide)
      (by decide) (by decide) (by decide) (by decide) (by decide)⟩

/-! ### C6 — transitive membership along the prototype chain -/

theorem isApplicationOf_none (fuel : Nat) (h : Heap) (i : ObjId) (mixin : Value)
    (hi : h.getOwn i PropKey.appliedMixin = none) :
    isApplicationOf fuel h (Value.obj i) mixin = some (Except.ok false) := by
  simp [isApplicationOf, hi]

theorem isApplicationOf_some (fuel : Nat) (h : Heap) (i : ObjId) (mixin : Value)
    (own u : Value) (hi : h.getOwn i PropKey.appliedMixin = some own)
    (hu : unwrap fuel h mixin = some u) :
    isApplicationOf fuel h (Value.obj i) mixin
      = some (Except.ok (decide (own = u))) := by
  simp [isApplicationOf, hi, hu]

theorem hasMixin_nullV {wf : Nat} (hwf : wf ≠ 0) (lf : Nat) (h : Heap) (mixin : Value) :
    hasMixin wf lf h Value.nullV mixin = some (Except.ok false) := by
  cases wf with
  | zero => exact absurd rfl hwf
  | succ n => rfl

theorem hasMixin_step {wf : Nat} (hwf : wf ≠ 0) (lf : Nat) (h : Heap) (i : ObjId)
    (mixin : Value) (o : JSObject) (pr : Value) (hi : h.objs i = some o)
    (hp : o.proto = pr)
    (hfalse : isApplicationOf lf h (Value.obj i) mixin = some (Except.ok false)) :
    hasMixin wf lf h (Value.obj i) mixin = hasMixin (wf - 1) lf h pr mixin := by
  cases wf with
  | zero => exact absurd rfl hwf
  | succ n => simp [hasMixin, hfalse, hi, hp]

/-- C6: transitive membership.  In the scenario heap (a class `C = 11`
extending `M2(M1(Base))` with `M1`, `M2` BareMixin-decorated mixins `4`
and `5`, and an instance `12` of `C`), `hasMixin(new C(), M1)` and
`hasMixin(new C(), M2)` are both `true`, and `hasMixin(new C(), M3)` is
`false` for every mixin value `M3` whose canonical (unwrapped) form
differs from the two applied markers (`Value.obj 2`, `Value.obj 3`) — the
canonical form of a mixin applied nowhere on the chain. -/
theorem C6_transitive_membership :
    c6Build = some c6Heap ∧
    hasMixin 20 20 c6Heap (Value.obj 12) (Value.obj 4) = some (Except.ok true) ∧
    hasMixin 20 20 c6Heap (Value.obj 12) (Value.obj 5) = some (Except.ok true) ∧
    ∀ mx u3, unwrap 20 c6Heap mx = some u3 → u3 ≠ Value.obj 2 → u3 ≠ Value.obj 3 →
      hasMixin 20 20 c6Heap (Value.obj 12) mx = some (Except.ok false) := by
  refine ⟨rfl, by decide, by decide, ?_⟩
  intro mx u3 hu hne2 hne3
  have d2 : (decide (Value.obj 2 = u3)) = false :=
    decide_eq_false (fun hh => hne2 hh.symm)
  have d3 : (decide (Value.obj 3 = u3)) = false :=
    decide_eq_false (fun hh => hne3 hh.symm)
  have o12 : c6Heap.objs 12 = some { proto := Value.obj 10 } := by decide
  have o10 : c6Heap.objs 10 = some { proto := Value.obj 8 } := by decide
  have o8 : c6Heap.objs 8 = some { proto := Value.obj 6, props := [(PropKey.appliedMixin, Value.obj 3)] } := by decide
  have o6 : c6Heap.objs 6 = some { proto := Value.obj 1, props := [(PropKey.appliedMixin, Value.obj 2)] } := by decide
  have o1 : c6Heap.objs 1 = some {} := by decide
  have g12 : c6Heap.getOwn 12 PropKey.appliedMixin = none := by decide
  have g10 : c6Heap.getOwn 10 PropKey.appliedMixin = none := by decide
  have g8 : c6Heap.getOwn 8 PropKey.appliedMixin = some (Value.obj 3) := by decide
  have g6 : c6Heap.getOwn 6 PropKey.appliedMixin = some (Value.obj 2) := by decide
  have g1 : c6Heap.getOwn 1 PropKey.appliedMixin = none := by decide
  have h8 : isApplicationOf 20 c6Heap (Value.obj 8) mx = some (Except.ok false) := by
    rw [isApplicationOf_some 20 c6Heap 8 mx (Value.obj 3) u3 g8 hu, d3]
  have h6 : isApplicationOf 20 c6Heap (Value.obj 6) mx = some (Except.ok false) := by
    rw [isApplicationOf_some 20 c6Heap 6 mx (Value.obj 2) u3 g6 hu, d2]
  rw [hasMixin_step (by decide) 20 c6Heap 12 mx _ (Value.obj 10) o12 rfl
      (isApplicationOf_none 20 c6Heap 12 mx g12),
    hasMixin_step (by decide) 20 c6Heap 10 mx _ (Value.obj 8) o10 rfl
      (isApplicationOf_none 20 c6Heap 10 mx g10),
    hasMixin_step (by decide) 20 c6Heap 8 mx _ (Value.obj 6) o8 rfl h8,
    hasMixin_step (by decide) 20 c6Heap 6 mx _ (Value.obj 1) o6 rfl h6,
    hasMixin_step (by decide) 20 c6Heap 1 mx _ Value.nullV o1 rfl
      (isApplicationOf_none 20 c6Heap 1 mx g1)]
  exact hasMixin_nullV (by decide) 20 c6Heap mx

/-! ### C4 — cache keying: the cache table is inherited by subclasses -/

/-- C4 (code bug): `Cached`'s lookup `superclass[_cachedApplications]`
(src/mixwith.js line 146) is an inherited-property read, so the subclass
`B2` finds `B1`'s cache table through the constructor prototype chain:
`CE(B2)` returns the class `6` that was cached for `B1` — reference-equal
to `CE(B1)`'s result, extending `B1` (`Value.obj 0`) rather than `B2` —
and `E`'s body runs only once (call log `[42]`), instead of being
invoked on `B2` to produce a distinct class.  (The sibling source variant
guards this lookup with `hasOwnProperty`.) -/
theorem C4_cached_cache_inherited_by_subclass :
    c4Run = some (6, 6, [42], Value.obj 0) := by decide

/-! ### C8 — HasInstance in an ES2015 host never installs its predicate -/

/-- C8 (code bug): the guard `!mixin[Symbol.hasInstance]`
(src/mixwith.js line 181) is an inherited-property lookup, and in a host
that supports `Symbol.hasInstance` every function inherits the (truthy)
built-in `Function.prototype[Symbol.hasInstance]`.  So although the mixin
`3` has no own `Symbol.hasInstance`, `HasInstance(3)` leaves the heap
unchanged (installing nothing) and merely returns `3`; afterwards
`o instanceof 3` falls back to ordinary `instanceof`, which throws a
`TypeError` (the arrow-function mixin has no `.prototype`), while
`hasMixin(o, 3)` is `true` — the claimed equivalence
`o instanceof E = hasMixin(o, E)` fails. -/
theorem C8_hasInstance_never_installs :
    HasInstance 9 c8Heap 3 = some (c8Heap, 3) ∧
    c8Heap.getOwn 3 PropKey.hasInstanceKey = none ∧
    getProp 9 c8Heap (Value.obj 3) PropKey.hasInstanceKey = some Value.ordinaryHasInst ∧
    hasMixin 9 9 c8Heap (Value.obj 6) (Value.obj 3) = some (Except.ok true) ∧
    instanceOf 9 c8Heap (Value.obj 6) 3 = some (Except.error ()) :=
  ⟨rfl, by decide, by decide, by decide, by decide⟩

/-! ### C7 — null tolerance -/

/-- C7 counterexample: the claim says `isApplicationOf(null, E)` returns
`false` and never raises, but the source evaluates
`proto.hasOwnProperty(_appliedMixin)` on `null`, which throws a
`TypeError`: the call errors instead of returning `false`. -/
theorem C7_null_isApplicationOf_throws :
    isApplicationOf 1 emptyHeap Value.nullV (Value.obj 0) = some (Except.error ()) ∧
    ¬ isApplicationOf 1 emptyHeap Value.nullV (Value.obj 0) = some (Except.ok false) := by
  decide

/-- C7 (amended): for every extension value `E`, `hasMixin(null, E)` and
`hasMixin(undefined, E)` return `false` without raising (the `o != null`
loop guard stops before any property access), but `isApplicationOf` throws
a `TypeError` when its `proto` argument is `null` or `undefined`. -/
theorem C7_null_tolerance (k lfuel : Nat) (h : Heap) (m : Value) :
    hasMixin (k + 1) lfuel h Value.nullV m = some (Except.ok false) ∧
    hasMixin (k + 1) lfuel h Value.undef m = some (Except.ok false) ∧
    isApplicationOf lfuel h Value.nullV m = some (Except.error ()) ∧
    isApplicationOf lfuel h Value.undef m = some (Except.error ()) :=
  ⟨rfl, rfl, rfl, rfl⟩

/-! ### C9 — ordered composition -/

/-- C9: `mix(Base).with(M1, M2)` left-folds the mixin list over the base,
so it is exactly `M2(M1(Base))` (`M1` applied first, `M2` outermost), and
in general `with(e1, …, eN)` is `eN(…(e1(Base)))`: appending a mixin to
the list post-composes its application. -/
theorem C9_with_ordered_composition (fuel : Nat) (h : Heap) (base m1 m2 : ObjId)
    (ms : List ObjId) (m : ObjId) :
    withMixins fuel h base [m1, m2] =
      (callFn fuel h m1 base).bind (fun p => callFn fuel p.1 m2 p.2) ∧
    withMixins fuel h base (ms ++ [m]) =
      (withMixins fuel h base ms).bind (fun p => callFn fuel p.1 m p.2) := by
  constructor
  · rfl
  · simp [withMixins, List.foldl_append]

end Mixwith
